import Mathlib

/-!
Verification development for the health-monitoring engine of
oysterpack/partire-k8s (package `health`).

The engine's coordinator, registration, timeout wrapper, result store and
subscription hub live in `part_000` (package health); the `Result` record is
in `pkg/fx/health/result.go`.  Go durations and instants are modelled as
`Int` (nanoseconds); Go `error` values as `Option GoError` with `none` for
`nil`; channels carried in subscription sets as `Nat` identifiers allocated
from a counter; goroutine side effects (scheduler starts, subscriber sends)
as explicit output lists.  The nondeterminism of a timeout race is an
explicit oracle (`RunEnv`).
-/

/-- Modelled from the spec: the `Status` enum is declared outside the
provided sources.  Spec §3: "Status: enumerated {Green, Yellow, Red} ordered
by severity Green < Yellow < Red"; `Green` is the zero value (spec §3:
overall health is Green "including the case of zero registered checks",
matching `var status Status` in `OverallHealth`). -/
inductive Status where
  | Green
  | Yellow
  | Red
deriving DecidableEq, Repr

/-- Modelled from the spec: Go `error` values; the sentinel errors
(`ErrTimeout`, `ErrNilChecker`, `ErrRunIntervalTooFrequent`,
`ErrRunTimeoutTooHigh`) are declared outside the provided sources and are
modelled as opaque-identity constructors; `errorString` is `errors.New`,
`healthCheckFailed`/`invalidCheckerOpts`/`alreadyRegistered` are the
`fmt.Errorf` values built in `part_000`; `multi` is a `multierr` combination
of two non-nil errors. -/
inductive GoError where
  | errorString (msg : String)
  | timeout
  | nilChecker
  | runIntervalTooFrequent
  | runTimeoutTooHigh
  | healthCheckFailed (id : String) (status : Status)
  | invalidCheckerOpts (id : String) (timeout runInterval : Int)
  | alreadyRegistered (id : String)
  | multi (left right : GoError)
deriving DecidableEq, Repr

/-- `go.uber.org/multierr`: `multierr.Append` returns the other argument when
one is nil, and a combined error when both are non-nil. -/
def multierrAppend : Option GoError → Option GoError → Option GoError
  | none, r => r
  | some l, none => some l
  | some l, some r => some (GoError.multi l r)

/-- Modelled from the spec: `Check` (spec §3) — identity and static metadata;
the struct declaration is outside the provided sources, its fields are
visible in `probes_test.go`. -/
structure Check where
  ID : String
  Description : String
  YellowImpact : String
  RedImpact : String
deriving DecidableEq, Repr

/-- Modelled from the spec: `CheckerOpts` (spec §3 "CheckerOptions") —
timeout and run interval durations, zero meaning "use engine default"; the
struct declaration is outside the provided sources, its fields are used in
`part_000`. -/
structure CheckerOpts where
  Timeout : Int
  RunInterval : Int
deriving DecidableEq, Repr

/-- `Result` from `pkg/fx/health/result.go`: health check result record. -/
structure Result where
  ID : String
  Status : Status
  Err : Option GoError
  Time : Int
  Duration : Int
deriving DecidableEq, Repr

/-- Modelled from the spec: the engine-wide options struct embedded in
`service` (spec §6 configuration surface); the declaration is outside the
provided sources, the fields are exactly those `part_000` reads
(`MaxCheckParallelism`, `DefaultTimeout`, `DefaultRunInterval`,
`MinRunInterval`, `MaxTimeout`). -/
structure Opts where
  MaxCheckParallelism : Nat
  DefaultTimeout : Int
  DefaultRunInterval : Int
  MinRunInterval : Int
  MaxTimeout : Int
deriving DecidableEq, Repr

/-- Oracle for one invocation of a wrapped `Checker`: resolves the race
between the raw check's completion and the timeout timer, and supplies the
clock readings and the raw check's outcome observed during that run. -/
structure RunEnv where
  timedOut : Bool
  now : Int
  start : Int
  rawStatus : Status
  rawErr : Option GoError
  duration : Int

/-- The raw check function `func() (Status, error)`; its outcome for a given
run is read off the run's oracle. -/
def CheckFn : Type := RunEnv → Status × Option GoError

/-- `healthCheckFailure` closure inside `service.Register` (part_000
lines 175-184): nil for Green, otherwise a synthesized "health check failed"
error combined with the check's own error. -/
def healthCheckFailure (id : String) (status : Status) (err : Option GoError) :
    Option GoError :=
  if status = Status.Green then none
  else multierrAppend (some (GoError.healthCheckFailed id status)) err

/-- `WithTimeout` closure inside `service.Register` (part_000 lines 186-232):
wraps a raw check with an id and timeout; on timeout synthesizes a Red
result, otherwise builds the result from the raw outcome. -/
def WithTimeout (id : String) (check : CheckFn) (timeout : Int) :
    RunEnv → Result := fun env =>
  if env.timedOut then
    { ID := id
      Status := Status.Red
      Err := healthCheckFailure id Status.Red (some GoError.timeout)
      Time := env.now - timeout
      Duration := timeout }
  else
    let so := check env
    { ID := id
      Status := so.1
      Err := healthCheckFailure id so.1 so.2
      Time := env.start
      Duration := env.duration }

/-- Accumulator loop of `service.OverallHealth` (part_000 lines 389-401):
Yellow overwrites the accumulator, Red returns immediately, Green leaves it. -/
def overallLoop : List Result → Status → Status
  | [], status => status
  | r :: rest, status =>
    match r.Status with
    | Status.Yellow => overallLoop rest Status.Yellow
    | Status.Red => Status.Red
    | Status.Green => overallLoop rest status

/-- `service.OverallHealth` (part_000 lines 389-401) over the stored results
(the values of `runResults`, in some iteration order): `var status Status`
starts the accumulator at the zero value Green. -/
def OverallHealth (runResults : List Result) : Status :=
  overallLoop runResults Status.Green

def statusIsRed (r : Result) : Bool := r.Status == Status.Red

def statusIsYellow (r : Result) : Bool := r.Status == Status.Yellow

theorem any_eq_of_perm {α : Type} (f : α → Bool) {l l' : List α}
    (h : l.Perm l') : l.any f = l'.any f := by
  rcases hb : l'.any f with _ | _
  · rw [List.any_eq_false] at hb ⊢
    intro x hx
    exact hb x (h.mem_iff.mp hx)
  · rw [List.any_eq_true] at hb ⊢
    obtain ⟨x, hx, hf⟩ := hb
    exact ⟨x, h.mem_iff.mpr hx, hf⟩

theorem overallLoop_yellow (l : List Result) :
    overallLoop l Status.Yellow =
      (if l.any statusIsRed then Status.Red else Status.Yellow) := by
  induction l with
  | nil => simp [overallLoop]
  | cons r rest ih =>
    obtain ⟨id, st, err, t, d⟩ := r
    cases st <;> simp [overallLoop, ih, statusIsRed, beq_iff_eq]

theorem overallLoop_green (l : List Result) :
    overallLoop l Status.Green =
      (if l.any statusIsRed then Status.Red
       else if l.any statusIsYellow then Status.Yellow else Status.Green) := by
  induction l with
  | nil => simp [overallLoop]
  | cons r rest ih =>
    obtain ⟨id, st, err, t, d⟩ := r
    cases st <;>
      simp [overallLoop, ih, overallLoop_yellow, statusIsRed, statusIsYellow,
        beq_iff_eq]

theorem OverallHealth_characterization (l : List Result) :
    OverallHealth l =
      (if l.any statusIsRed then Status.Red
       else if l.any statusIsYellow then Status.Yellow else Status.Green) :=
  overallLoop_green l

/-- Claim C1: `OverallHealth` over any stored multiset of results returns
Red if some stored result is Red, else Yellow if some is Yellow, else Green;
it returns Green on the empty store, and its value is invariant under every
permutation of the stored results. -/
theorem overallHealth_severity_rule (l l' : List Result) (h : l.Perm l') :
    OverallHealth l =
        (if l.any statusIsRed then Status.Red
         else if l.any statusIsYellow then Status.Yellow else Status.Green)
      ∧ (OverallHealth l = Status.Red ↔ ∃ r ∈ l, r.Status = Status.Red)
      ∧ (OverallHealth l = Status.Yellow ↔
          (∃ r ∈ l, r.Status = Status.Yellow) ∧ ¬ ∃ r ∈ l, r.Status = Status.Red)
      ∧ OverallHealth ([] : List Result) = Status.Green
      ∧ OverallHealth l = OverallHealth l' := by
  have hred : l.any statusIsRed = true ↔ ∃ r ∈ l, r.Status = Status.Red := by
    simp [List.any_eq_true, statusIsRed, beq_iff_eq]
  have hyel : l.any statusIsYellow = true ↔ ∃ r ∈ l, r.Status = Status.Yellow := by
    simp [List.any_eq_true, statusIsYellow, beq_iff_eq]
  refine ⟨OverallHealth_characterization l, ?_, ?_, rfl, ?_⟩
  · rw [OverallHealth_characterization l]
    constructor
    · intro hv
      by_cases hr : l.any statusIsRed = true
      · exact hred.mp hr
      · rw [if_neg hr] at hv
        by_cases hy : l.any statusIsYellow = true <;> simp [hy] at hv
    · intro he
      simp [hred.mpr he]
  · rw [OverallHealth_characterization l]
    constructor
    · intro hv
      by_cases hr : l.any statusIsRed = true
      · simp [hr] at hv
      · by_cases hy : l.any statusIsYellow = true
        · refine ⟨hyel.mp hy, ?_⟩
          intro he
          exact hr (hred.mpr he)
        · simp [hr, hy] at hv
    · rintro ⟨hy, hr⟩
      have hr' : l.any statusIsRed = false := by
        rcases h' : l.any statusIsRed with _ | _
        · rfl
        · exact absurd (hred.mp h') hr
      simp [hr', hyel.mpr hy]
  · rw [OverallHealth_characterization l, OverallHealth_characterization l']
    rw [any_eq_of_perm statusIsRed h, any_eq_of_perm statusIsYellow h]

/-- Witness for C1: evaluates the theorem on a concrete two-element store and
a permutation of it. -/
theorem overallHealth_severity_rule_witness :
    OverallHealth
        [{ ID := "a", Status := Status.Yellow, Err := some GoError.timeout,
           Time := 0, Duration := 1 },
         { ID := "b", Status := Status.Green, Err := none,
           Time := 0, Duration := 1 }] = Status.Yellow := by
  have h := overallHealth_severity_rule
    [{ ID := "a", Status := Status.Yellow, Err := some GoError.timeout,
       Time := 0, Duration := 1 },
     { ID := "b", Status := Status.Green, Err := none,
       Time := 0, Duration := 1 }]
    [{ ID := "b", Status := Status.Green, Err := none,
       Time := 0, Duration := 1 },
     { ID := "a", Status := Status.Yellow, Err := some GoError.timeout,
       Time := 0, Duration := 1 }]
    (List.Perm.swap _ _ _)
  rw [h.1]
  decide

/-- Claim C2: every Result produced by a wrapped Checker invocation (timeout
branch or normal completion) has Err = nil iff Status = Green, and when
Status is not Green its Err is non-nil even if the raw check returned a nil
error. -/
theorem checker_err_iff_not_green (id : String) (check : CheckFn)
    (timeout : Int) (env : RunEnv) :
    ((WithTimeout id check timeout env).Err = none ↔
        (WithTimeout id check timeout env).Status = Status.Green)
      ∧ ((WithTimeout id check timeout env).Status ≠ Status.Green →
          (WithTimeout id check timeout env).Err ≠ none) := by
  constructor
  · rcases henv : env.timedOut with _ | _
    · rcases hc : check env with ⟨st, err⟩
      cases st <;>
        simp [WithTimeout, henv, hc, healthCheckFailure, multierrAppend] <;>
        cases err <;> simp [multierrAppend]
    · simp [WithTimeout, henv, healthCheckFailure, multierrAppend]
  · intro hst hne
    rcases henv : env.timedOut with _ | _
    · rcases hc : check env with ⟨st, err⟩
      simp [WithTimeout, henv, hc] at hst hne
      rw [healthCheckFailure, if_neg hst] at hne
      cases err <;> simp [multierrAppend] at hne
    · simp [WithTimeout, henv, healthCheckFailure, multierrAppend] at hne

/-- Witness for C2: a run whose raw check returns (Red, nil); the wrapped
Result synthesizes a non-nil Err. -/
theorem checker_err_iff_not_green_witness :
    (WithTimeout "db" (fun _ => (Status.Red, none)) 5
        { timedOut := false, now := 100, start := 90, rawStatus := Status.Red,
          rawErr := none, duration := 3 }).Err ≠ none := by
  have h := checker_err_iff_not_green "db" (fun _ => (Status.Red, none)) 5
    { timedOut := false, now := 100, start := 90, rawStatus := Status.Red,
      rawErr := none, duration := 3 }
  exact h.2 (by decide)

/-- Claim C3: when the timeout elapses before the raw check completes, the
returned Result has Status Red, Err the synthesized failure wrapping
ErrTimeout, Duration exactly the configured timeout, Time = now - timeout,
and the raw check's own outcome is discarded (any raw function yields the
same Result in that run). -/
theorem checker_timeout_branch (id : String) (check : CheckFn) (timeout : Int)
    (env : RunEnv) (h : env.timedOut = true) :
    (WithTimeout id check timeout env).Status = Status.Red
      ∧ (WithTimeout id check timeout env).Err =
          some (GoError.multi (GoError.healthCheckFailed id Status.Red)
            GoError.timeout)
      ∧ (WithTimeout id check timeout env).Duration = timeout
      ∧ (WithTimeout id check timeout env).Time = env.now - timeout
      ∧ ∀ check' : CheckFn,
          WithTimeout id check' timeout env = WithTimeout id check timeout env := by
  refine ⟨?_, ?_, ?_, ?_, ?_⟩ <;>
    simp [WithTimeout, h, healthCheckFailure, multierrAppend]

/-- Witness for C3: a concrete timed-out run; the raw check would have
returned Green but the timeout Result stands. -/
theorem checker_timeout_branch_witness :
    (WithTimeout "db" (fun _ => (Status.Green, none)) 5
        { timedOut := true, now := 100, start := 95, rawStatus := Status.Green,
          rawErr := none, duration := 7 }).Status = Status.Red := by
  have h := checker_timeout_branch "db" (fun _ => (Status.Green, none)) 5
    { timedOut := true, now := 100, start := 95, rawStatus := Status.Green,
      rawErr := none, duration := 7 } rfl
  exact h.1

/-- `RegisteredCheck`: Check + effective CheckerOpts + the wrapped Checker
(part_000 line 307-311 builds one); the struct declaration is outside the
provided sources (spec §3). -/
structure RegisteredCheck where
  Check : Check
  CheckerOpts : CheckerOpts
  Checker : RunEnv → Result

/-- State owned by the coordinator goroutine (`service` struct in part_000):
the embedded engine options, the registered-check list, the stop flag
(whether the `stop` channel is closed), the subscription sets (channels as
`Nat` ids with, for result subscriptions, their delivery predicate), the
last published overall health, the latest-result map as an association list,
and a counter allocating fresh channel ids. -/
structure ServiceState where
  opts : Opts
  checks : List RegisteredCheck
  stopClosed : Bool
  subscriptionsForRegisteredChecks : List Nat
  subscriptionsForCheckResults : List (Nat × (Result → Bool))
  subscriptionsForOverallHealthChanges : List Nat
  overallHealth : Status
  runResults : List (String × Result)
  nextChan : Nat

/-- `registerRequest` (part_000 lines 165-171), without the reply channel;
a nil `checker` function is `none`. -/
structure registerRequest where
  check : Check
  opts : CheckerOpts
  checker : Option CheckFn

/-- Outcome of `service.Register`: the updated state, the returned error,
the ids of checks for which a scheduler goroutine was started
(`go Schedule(...)`), and the registered checks published to registration
subscribers (`SendRegisteredCheckToSubscribers`). -/
structure RegisterResult where
  state : ServiceState
  err : Option GoError
  scheduled : List String
  published : List RegisteredCheck

/-- `ApplyDefaultOpts` closure inside `service.Register` (part_000
lines 259-268): zero Timeout/RunInterval are replaced by the engine-wide
defaults. -/
def ApplyDefaultOpts (engine : Opts) (opts : CheckerOpts) : CheckerOpts :=
  let o1 := if opts.Timeout = 0 then { opts with Timeout := engine.DefaultTimeout } else opts
  if o1.RunInterval = 0 then { o1 with RunInterval := engine.DefaultRunInterval } else o1

/-- `ValidateOpts` closure inside `service.Register` (part_000
lines 270-279): too-frequent interval and too-high timeout, combined with
`multierr.Append` when both fail. -/
def ValidateOpts (engine : Opts) (opts : CheckerOpts) : Option GoError :=
  let e1 := if opts.RunInterval < engine.MinRunInterval
    then some GoError.runIntervalTooFrequent else none
  if opts.Timeout > engine.MaxTimeout
    then multierrAppend e1 (some GoError.runTimeoutTooHigh) else e1

/-- `service.RegisteredCheck` (part_000 lines 319-326): first registered
check with the given id, if any. -/
def RegisteredCheckById (checks : List RegisteredCheck) (id : String) :
    Option RegisteredCheck :=
  checks.find? (fun c => c.Check.ID == id)

/-- `service.Register` (part_000 lines 292-317): nil-checker guard, option
defaulting and validation, duplicate-id guard, then append the wrapped
check, start its scheduler and publish the registration. -/
def Register (s : ServiceState) (req : registerRequest) : RegisterResult :=
  match req.checker with
  | none =>
    { state := s
      err := some (GoError.multi (GoError.errorString req.check.ID) GoError.nilChecker)
      scheduled := []
      published := [] }
  | some checkFn =>
    let opts := ApplyDefaultOpts s.opts req.opts
    match ValidateOpts s.opts opts with
    | some e =>
      { state := s
        err := some (GoError.multi
          (GoError.invalidCheckerOpts req.check.ID opts.Timeout opts.RunInterval) e)
        scheduled := []
        published := [] }
    | none =>
      match RegisteredCheckById s.checks req.check.ID with
      | some _ =>
        { state := s
          err := some (GoError.alreadyRegistered req.check.ID)
          scheduled := []
          published := [] }
      | none =>
        let rc : RegisteredCheck :=
          { Check := req.check
            CheckerOpts := opts
            Checker := WithTimeout req.check.ID checkFn opts.Timeout }
        { state := { s with checks := s.checks ++ [rc] }
          err := none
          scheduled := [req.check.ID]
          published := [rc] }

/-- Claim C8: a registration request with a nil checker function fails with
the NilCheckerError carrying the check's ID, and nothing else happens: the
table is unchanged, no scheduler is started, no registration is published. -/
theorem register_nil_checker (s : ServiceState) (req : registerRequest)
    (h : req.checker = none) :
    Register s req =
      { state := s
        err := some (GoError.multi (GoError.errorString req.check.ID)
          GoError.nilChecker)
        scheduled := []
        published := [] } := by
  simp [Register, h]

/-- Witness for C8: a concrete nil-checker registration is rejected with the
id-carrying error. -/
theorem register_nil_checker_witness :
    (Register
        { opts := { MaxCheckParallelism := 1, DefaultTimeout := 5,
                    DefaultRunInterval := 15, MinRunInterval := 10,
                    MaxTimeout := 100 },
          checks := [], stopClosed := false,
          subscriptionsForRegisteredChecks := [],
          subscriptionsForCheckResults := [],
          subscriptionsForOverallHealthChanges := [],
          overallHealth := Status.Green, runResults := [], nextChan := 0 }
        { check := { ID := "db", Description := "", YellowImpact := "",
                     RedImpact := "" },
          opts := { Timeout := 0, RunInterval := 0 },
          checker := none }).err =
      some (GoError.multi (GoError.errorString "db") GoError.nilChecker) := by
  rw [register_nil_checker _ _ rfl]

theorem applyDefaultOpts_timeout (engine : Opts) (opts : CheckerOpts) :
    (ApplyDefaultOpts engine opts).Timeout =
      (if opts.Timeout = 0 then engine.DefaultTimeout else opts.Timeout) := by
  by_cases ht : opts.Timeout = 0 <;>
    by_cases hr : opts.RunInterval = 0 <;>
    simp [ApplyDefaultOpts, ht, hr]

theorem applyDefaultOpts_runInterval (engine : Opts) (opts : CheckerOpts) :
    (ApplyDefaultOpts engine opts).RunInterval =
      (if opts.RunInterval = 0 then engine.DefaultRunInterval
       else opts.RunInterval) := by
  by_cases ht : opts.Timeout = 0 <;>
    by_cases hr : opts.RunInterval = 0 <;>
    simp [ApplyDefaultOpts, ht, hr]

/-- Claim C5: zero Timeout/RunInterval are first replaced by the engine
defaults; then an effective RunInterval below the engine minimum fails with
RunIntervalTooFrequentError, an effective Timeout above the engine maximum
fails with TimeoutTooHighError, and when both bounds are violated the error
combines both; in each failure case the check is not added, no scheduler is
started and no registration is published. -/
theorem register_opts_defaulting_validation (s : ServiceState)
    (req : registerRequest) (cf : CheckFn) (hchk : req.checker = some cf) :
    (ApplyDefaultOpts s.opts req.opts).Timeout =
        (if req.opts.Timeout = 0 then s.opts.DefaultTimeout else req.opts.Timeout)
      ∧ (ApplyDefaultOpts s.opts req.opts).RunInterval =
          (if req.opts.RunInterval = 0 then s.opts.DefaultRunInterval
           else req.opts.RunInterval)
      ∧ ((ApplyDefaultOpts s.opts req.opts).RunInterval < s.opts.MinRunInterval →
          ¬ (ApplyDefaultOpts s.opts req.opts).Timeout > s.opts.MaxTimeout →
          Register s req =
            { state := s
              err := some (GoError.multi
                (GoError.invalidCheckerOpts req.check.ID
                  (ApplyDefaultOpts s.opts req.opts).Timeout
                  (ApplyDefaultOpts s.opts req.opts).RunInterval)
                GoError.runIntervalTooFrequent)
              scheduled := []
              published := [] })
      ∧ (¬ (ApplyDefaultOpts s.opts req.opts).RunInterval < s.opts.MinRunInterval →
          (ApplyDefaultOpts s.opts req.opts).Timeout > s.opts.MaxTimeout →
          Register s req =
            { state := s
              err := some (GoError.multi
                (GoError.invalidCheckerOpts req.check.ID
                  (ApplyDefaultOpts s.opts req.opts).Timeout
                  (ApplyDefaultOpts s.opts req.opts).RunInterval)
                GoError.runTimeoutTooHigh)
              scheduled := []
              published := [] })
      ∧ ((ApplyDefaultOpts s.opts req.opts).RunInterval < s.opts.MinRunInterval →
          (ApplyDefaultOpts s.opts req.opts).Timeout > s.opts.MaxTimeout →
          Register s req =
            { state := s
              err := some (GoError.multi
                (GoError.invalidCheckerOpts req.check.ID
                  (ApplyDefaultOpts s.opts req.opts).Timeout
                  (ApplyDefaultOpts s.opts req.opts).RunInterval)
                (GoError.multi GoError.runIntervalTooFrequent
                  GoError.runTimeoutTooHigh))
              scheduled := []
              published := [] }) := by
  refine ⟨applyDefaultOpts_timeout s.opts req.opts,
    applyDefaultOpts_runInterval s.opts req.opts, ?_, ?_, ?_⟩
  · intro hI hT
    have hv : ValidateOpts s.opts (ApplyDefaultOpts s.opts req.opts) =
        some GoError.runIntervalTooFrequent := by
      simp [ValidateOpts, hI, hT]
    simp [Register, hchk, hv]
  · intro hI hT
    have hv : ValidateOpts s.opts (ApplyDefaultOpts s.opts req.opts) =
        some GoError.runTimeoutTooHigh := by
      simp [ValidateOpts, hI, hT, multierrAppend]
    simp [Register, hchk, hv]
  · intro hI hT
    have hv : ValidateOpts s.opts (ApplyDefaultOpts s.opts req.opts) =
        some (GoError.multi GoError.runIntervalTooFrequent
          GoError.runTimeoutTooHigh) := by
      simp [ValidateOpts, hI, hT, multierrAppend]
    simp [Register, hchk, hv]

/-- Witness for C5: on an engine with MinRunInterval 10 and MaxTimeout 100,
a request with RunInterval 3 and Timeout 200 is rejected with the combined
error and the state is untouched. -/
theorem register_opts_defaulting_validation_witness :
    (Register
        { opts := { MaxCheckParallelism := 1, DefaultTimeout := 5,
                    DefaultRunInterval := 15, MinRunInterval := 10,
                    MaxTimeout := 100 },
          checks := [], stopClosed := false,
          subscriptionsForRegisteredChecks := [],
          subscriptionsForCheckResults := [],
          subscriptionsForOverallHealthChanges := [],
          overallHealth := Status.Green, runResults := [], nextChan := 0 }
        { check := { ID := "db", Description := "", YellowImpact := "",
                     RedImpact := "" },
          opts := { Timeout := 200, RunInterval := 3 },
          checker := some (fun _ => (Status.Green, none)) }).err =
      some (GoError.multi (GoError.invalidCheckerOpts "db" 200 3)
        (GoError.multi GoError.runIntervalTooFrequent
          GoError.runTimeoutTooHigh)) := by
  have h := (register_opts_defaulting_validation
    { opts := { MaxCheckParallelism := 1, DefaultTimeout := 5,
                DefaultRunInterval := 15, MinRunInterval := 10,
                MaxTimeout := 100 },
      checks := [], stopClosed := false,
      subscriptionsForRegisteredChecks := [],
      subscriptionsForCheckResults := [],
      subscriptionsForOverallHealthChanges := [],
      overallHealth := Status.Green, runResults := [], nextChan := 0 }
    { check := { ID := "db", Description := "", YellowImpact := "",
                 RedImpact := "" },
      opts := { Timeout := 200, RunInterval := 3 },
      checker := some (fun _ => (Status.Green, none)) }
    (fun _ => (Status.Green, none)) rfl).2.2.2.2
    (by decide) (by decide)
  rw [h]
  rfl

theorem registeredCheckById_append_self (l : List RegisteredCheck)
    (rc : RegisteredCheck) (id : String) (h : rc.Check.ID = id) :
    ∃ c, RegisteredCheckById (l ++ [rc]) id = some c := by
  induction l with
  | nil => exact ⟨rc, by simp [RegisteredCheckById, List.find?, h]⟩
  | cons a rest ih =>
    rcases hb : (a.Check.ID == id) with _ | _
    · obtain ⟨c, hc⟩ := ih
      exact ⟨c, by simp only [List.cons_append, RegisteredCheckById,
        List.find?, hb]; exact hc⟩
    · exact ⟨a, by simp only [List.cons_append, RegisteredCheckById,
        List.find?, hb]⟩

/-- Claim C4: if a registration succeeded, registering any request with the
same check ID again (non-nil checker, options passing validation) fails with
the DuplicateCheckError for that ID and leaves the table unchanged: same
state, no scheduler started, no registration published. -/
theorem register_duplicate_id (s : ServiceState) (req req2 : registerRequest)
    (h1 : (Register s req).err = none)
    (h2 : req2.check.ID = req.check.ID)
    (h3 : req2.checker.isSome = true)
    (h4 : ValidateOpts s.opts (ApplyDefaultOpts s.opts req2.opts) = none) :
    (Register (Register s req).state req2).err =
        some (GoError.alreadyRegistered req2.check.ID)
      ∧ (Register (Register s req).state req2).state = (Register s req).state
      ∧ (Register (Register s req).state req2).scheduled = []
      ∧ (Register (Register s req).state req2).published = [] := by
  rcases hc : req.checker with _ | cf
  · rw [Register] at h1
    simp [hc] at h1
  rcases hv : ValidateOpts s.opts (ApplyDefaultOpts s.opts req.opts) with _ | e
  case some => rw [Register] at h1; simp [hc, hv] at h1
  rcases hd : RegisteredCheckById s.checks req.check.ID with _ | c
  case some => rw [Register] at h1; simp [hc, hv, hd] at h1
  have hstate : (Register s req).state =
      { s with checks := s.checks ++
          [{ Check := req.check
             CheckerOpts := ApplyDefaultOpts s.opts req.opts
             Checker := WithTimeout req.check.ID cf
               (ApplyDefaultOpts s.opts req.opts).Timeout }] } := by
    rw [Register]
    simp [hc, hv, hd]
  rcases hc2 : req2.checker with _ | cf2
  · rw [hc2] at h3; simp at h3
  obtain ⟨c2, hfound⟩ := registeredCheckById_append_self s.checks
    { Check := req.check
      CheckerOpts := ApplyDefaultOpts s.opts req.opts
      Checker := WithTimeout req.check.ID cf
        (ApplyDefaultOpts s.opts req.opts).Timeout }
    req2.check.ID h2.symm
  rw [hstate]
  rw [Register]
  simp only [hc2]
  have hopts : ({ s with checks := s.checks ++
      [{ Check := req.check
         CheckerOpts := ApplyDefaultOpts s.opts req.opts
         Checker := WithTimeout req.check.ID cf
           (ApplyDefaultOpts s.opts req.opts).Timeout }] } : ServiceState).opts
      = s.opts := rfl
  rw [hopts, h4]
  simp [hfound]

/-- Witness for C4: register "db" on a fresh engine, then register "db"
again; the second attempt fails with the duplicate error. -/
theorem register_duplicate_id_witness :
    (Register
        (Register
          { opts := { MaxCheckParallelism := 1, DefaultTimeout := 5,
                      DefaultRunInterval := 15, MinRunInterval := 10,
                      MaxTimeout := 100 },
            checks := [], stopClosed := false,
            subscriptionsForRegisteredChecks := [],
            subscriptionsForCheckResults := [],
            subscriptionsForOverallHealthChanges := [],
            overallHealth := Status.Green, runResults := [], nextChan := 0 }
          { check := { ID := "db", Description := "", YellowImpact := "",
                       RedImpact := "" },
            opts := { Timeout := 50, RunInterval := 20 },
            checker := some (fun _ => (Status.Green, none)) }).state
        { check := { ID := "db", Description := "other", YellowImpact := "",
                     RedImpact := "" },
          opts := { Timeout := 50, RunInterval := 20 },
          checker := some (fun _ => (Status.Green, none)) }).err =
      some (GoError.alreadyRegistered "db") := by
  have h := register_duplicate_id
    { opts := { MaxCheckParallelism := 1, DefaultTimeout := 5,
                DefaultRunInterval := 15, MinRunInterval := 10,
                MaxTimeout := 100 },
      checks := [], stopClosed := false,
      subscriptionsForRegisteredChecks := [],
      subscriptionsForCheckResults := [],
      subscriptionsForOverallHealthChanges := [],
      overallHealth := Status.Green, runResults := [], nextChan := 0 }
    { check := { ID := "db", Description := "", YellowImpact := "",
                 RedImpact := "" },
      opts := { Timeout := 50, RunInterval := 20 },
      checker := some (fun _ => (Status.Green, none)) }
    { check := { ID := "db", Description := "other", YellowImpact := "",
                 RedImpact := "" },
      opts := { Timeout := 50, RunInterval := 20 },
      checker := some (fun _ => (Status.Green, none)) }
    rfl rfl rfl (by rfl)
  exact h.1

/-- Go map read `m[k]` for the `runResults` map, over its association-list
model. -/
def mapLookup (m : List (String × Result)) (k : String) : Option Result :=
  (m.find? (fun p => p.1 == k)).map Prod.snd

/-- Go map write `m[k] = v` for the `runResults` map: replaces the entry for
`k` when present, otherwise adds one. -/
def mapInsert (m : List (String × Result)) (k : String) (v : Result) :
    List (String × Result) :=
  match m with
  | [] => [(k, v)]
  | p :: rest => if p.1 = k then (k, v) :: rest else p :: mapInsert rest k v

theorem mapLookup_mapInsert_self (m : List (String × Result)) (k : String)
    (v : Result) : mapLookup (mapInsert m k v) k = some v := by
  induction m with
  | nil => simp [mapInsert, mapLookup, List.find?]
  | cons p rest ih =>
    by_cases h : p.1 = k
    · simp [mapInsert, h, mapLookup, List.find?]
    · have hb : (p.1 == k) = false := by simp [h]
      simp only [mapInsert, if_neg h, mapLookup, List.find?, hb]
      exact ih

theorem mapLookup_mapInsert_other (m : List (String × Result)) (k k' : String)
    (v : Result) (hne : k' ≠ k) :
    mapLookup (mapInsert m k v) k' = mapLookup m k' := by
  have hkk : ¬ k = k' := fun h => hne h.symm
  induction m with
  | nil =>
    have hb : (k == k') = false := by simp [hkk]
    simp [mapInsert, mapLookup, List.find?, hb]
  | cons p rest ih =>
    by_cases h : p.1 = k
    · have hb : (k == k') = false := by simp [hkk]
      have hpk : ¬ p.1 = k' := h ▸ hkk
      have hpb : (p.1 == k') = false := by simp [hpk]
      simp [mapInsert, h, mapLookup, List.find?, hb, hpb]
    · rcases hpb : (p.1 == k') with _ | _
      · simp only [mapInsert, if_neg h, mapLookup, List.find?, hpb]
        exact ih
      · simp [mapInsert, h, mapLookup, List.find?, hpb]

/-- `service.updateOverallHealth` (part_000 lines 141-155): recompute the
overall health from the stored results; if it changed, send the new value to
every overall-health subscriber (each send on its own goroutine); returns
the new state and the sends performed. -/
def updateOverallHealth (s : ServiceState) : ServiceState × List (Nat × Status) :=
  let previous := s.overallHealth
  let newHealth := OverallHealth (s.runResults.map Prod.snd)
  let s' := { s with overallHealth := newHealth }
  if previous = newHealth then (s', [])
  else (s', s'.subscriptionsForOverallHealthChanges.map (fun ch => (ch, newHealth)))

/-- `service.publishResult` (part_000 lines 126-137): send the result to
every check-result subscriber whose filter accepts it. -/
def publishResult (s : ServiceState) (result : Result) : List (Nat × Result) :=
  (s.subscriptionsForCheckResults.filter (fun p => p.2 result)).map
    (fun p => (p.1, result))

/-- The `result := <-s.results` branch of the coordinator loop
(part_000 lines 93-96): store the result, update the overall health, publish
the result. -/
structure ProcessOutcome where
  state : ServiceState
  overallSends : List (Nat × Status)
  resultSends : List (Nat × Result)

def processResult (s : ServiceState) (result : Result) : ProcessOutcome :=
  let s1 := { s with runResults := mapInsert s.runResults result.ID result }
  let upd := updateOverallHealth s1
  { state := upd.1
    overallSends := upd.2
    resultSends := publishResult upd.1 result }

/-- Claim C6: processing an incoming Result stores it under its CheckID
(overwriting any prior value, leaving other IDs untouched), recomputes the
overall health from the full store, and broadcasts the new overall value to
every overall-health subscriber exactly when it differs from the previously
published value (no sends when unchanged). -/
theorem processResult_state_overallHealth (s : ServiceState) (r : Result) :
    (processResult s r).state.overallHealth =
      OverallHealth ((mapInsert s.runResults r.ID r).map Prod.snd) := by
  rw [processResult, updateOverallHealth]
  by_cases h : s.overallHealth =
      OverallHealth ((mapInsert s.runResults r.ID r).map Prod.snd) <;>
    simp [h]

theorem processResult_state_runResults (s : ServiceState) (r : Result) :
    (processResult s r).state.runResults = mapInsert s.runResults r.ID r := by
  rw [processResult, updateOverallHealth]
  by_cases h : s.overallHealth =
      OverallHealth ((mapInsert s.runResults r.ID r).map Prod.snd) <;>
    simp [h]

theorem processResult_overallSends (s : ServiceState) (r : Result) :
    (processResult s r).overallSends =
      (if s.overallHealth =
          OverallHealth ((mapInsert s.runResults r.ID r).map Prod.snd) then []
       else s.subscriptionsForOverallHealthChanges.map
         (fun ch => (ch,
           OverallHealth ((mapInsert s.runResults r.ID r).map Prod.snd)))) := by
  rw [processResult, updateOverallHealth]
  by_cases h : s.overallHealth =
      OverallHealth ((mapInsert s.runResults r.ID r).map Prod.snd) <;>
    simp [h]

theorem process_result_store_and_broadcast (s : ServiceState) (r : Result) :
    mapLookup (processResult s r).state.runResults r.ID = some r
      ∧ (∀ id, id ≠ r.ID →
          mapLookup (processResult s r).state.runResults id =
            mapLookup s.runResults id)
      ∧ (processResult s r).state.overallHealth =
          OverallHealth ((processResult s r).state.runResults.map Prod.snd)
      ∧ ((processResult s r).state.overallHealth = s.overallHealth →
          (processResult s r).overallSends = [])
      ∧ ((processResult s r).state.overallHealth ≠ s.overallHealth →
          (processResult s r).overallSends =
            s.subscriptionsForOverallHealthChanges.map
              (fun ch => (ch, (processResult s r).state.overallHealth))) := by
  have hnew := processResult_state_overallHealth s r
  have hstore := processResult_state_runResults s r
  have hsends := processResult_overallSends s r
  refine ⟨?_, ?_, ?_, ?_, ?_⟩
  · rw [hstore]
    exact mapLookup_mapInsert_self s.runResults r.ID r
  · intro id hne
    rw [hstore]
    exact mapLookup_mapInsert_other s.runResults r.ID id r hne
  · rw [hstore, hnew]
  · intro hsame
    rw [hnew] at hsame
    rw [hsends, if_pos hsame.symm]
  · intro hdiff
    rw [hnew] at hdiff
    rw [hsends, if_neg (fun h => hdiff h.symm), hnew]

/-- Witness for C6: a store going Green→Red with one subscriber (channel 7)
receives exactly one broadcast of the new value. -/
theorem process_result_store_and_broadcast_witness :
    (processResult
        { opts := { MaxCheckParallelism := 1, DefaultTimeout := 5,
                    DefaultRunInterval := 15, MinRunInterval := 10,
                    MaxTimeout := 100 },
          checks := [], stopClosed := false,
          subscriptionsForRegisteredChecks := [],
          subscriptionsForCheckResults := [],
          subscriptionsForOverallHealthChanges := [7],
          overallHealth := Status.Green, runResults := [], nextChan := 8 }
        { ID := "db", Status := Status.Red,
          Err := some (GoError.healthCheckFailed "db" Status.Red),
          Time := 0, Duration := 1 }).overallSends = [(7, Status.Red)] := by
  have h := (process_result_store_and_broadcast
    { opts := { MaxCheckParallelism := 1, DefaultTimeout := 5,
                DefaultRunInterval := 15, MinRunInterval := 10,
                MaxTimeout := 100 },
      checks := [], stopClosed := false,
      subscriptionsForRegisteredChecks := [],
      subscriptionsForCheckResults := [],
      subscriptionsForOverallHealthChanges := [7],
      overallHealth := Status.Green, runResults := [], nextChan := 8 }
    { ID := "db", Status := Status.Red,
      Err := some (GoError.healthCheckFailed "db" Status.Red),
      Time := 0, Duration := 1 }).2.2.2.2 (by decide)
  rw [h]
  rfl

theorem processResult_subscriptions (s : ServiceState) (r : Result) :
    (processResult s r).state.subscriptionsForOverallHealthChanges =
      s.subscriptionsForOverallHealthChanges := by
  rw [processResult, updateOverallHealth]
  by_cases h : s.overallHealth =
      OverallHealth ((mapInsert s.runResults r.ID r).map Prod.snd) <;>
    simp [h]

/-- `service.SubscribeForOverallHealthChanges` (part_000 lines 403-411):
makes a buffered channel of capacity 1, puts the current overall health into
it, adds it to the subscriber set, and replies with it.  The fresh channel
is modelled by the allocation counter `nextChan`; the third component is the
channel's buffered contents at the moment the caller receives it. -/
def SubscribeForOverallHealthChanges (s : ServiceState) :
    ServiceState × Nat × List Status :=
  let ch := s.nextChan
  ({ s with
      subscriptionsForOverallHealthChanges :=
        s.subscriptionsForOverallHealthChanges ++ [ch]
      nextChan := ch + 1 },
   ch, [s.overallHealth])

/-- Claim C7: subscribing for overall-health changes returns a fresh channel
(one not in the subscriber set) whose first delivered value, already
buffered at subscription time without waiting for any new Result, is the
current overall health; the channel joins the subscriber set, so every
subsequent overall-health change broadcast includes it. -/
theorem subscribe_overall_health_first_value (s : ServiceState)
    (hfresh : ∀ c ∈ s.subscriptionsForOverallHealthChanges, c < s.nextChan) :
    (SubscribeForOverallHealthChanges s).2.2 = [s.overallHealth]
      ∧ (SubscribeForOverallHealthChanges s).2.1 ∉
          s.subscriptionsForOverallHealthChanges
      ∧ (SubscribeForOverallHealthChanges s).2.1 ∈
          (SubscribeForOverallHealthChanges s).1.subscriptionsForOverallHealthChanges
      ∧ ∀ r : Result,
          (processResult (SubscribeForOverallHealthChanges s).1 r).state.overallHealth ≠
              (SubscribeForOverallHealthChanges s).1.overallHealth →
            ((SubscribeForOverallHealthChanges s).2.1,
              (processResult (SubscribeForOverallHealthChanges s).1 r).state.overallHealth) ∈
              (processResult (SubscribeForOverallHealthChanges s).1 r).overallSends := by
  refine ⟨rfl, ?_, ?_, ?_⟩
  · intro hmem
    exact absurd (hfresh _ hmem) (lt_irrefl s.nextChan)
  · simp [SubscribeForOverallHealthChanges]
  · intro r hdiff
    set s1 := (SubscribeForOverallHealthChanges s).1 with hs1
    have hnew := processResult_state_overallHealth s1 r
    rw [hnew] at hdiff ⊢
    have hsends := processResult_overallSends s1 r
    have hne : ¬ s1.overallHealth =
        OverallHealth ((mapInsert s1.runResults r.ID r).map Prod.snd) := by
      intro h
      exact hdiff h.symm
    rw [hsends, if_neg hne]
    have hmem : (SubscribeForOverallHealthChanges s).2.1 ∈
        s1.subscriptionsForOverallHealthChanges := by
      simp [hs1, SubscribeForOverallHealthChanges]
    exact List.mem_map_of_mem _ hmem

/-- Witness for C7: on an engine whose overall health is Yellow with an
empty subscriber set, the new subscriber's channel is 0 and its buffered
first value is Yellow. -/
theorem subscribe_overall_health_first_value_witness :
    (SubscribeForOverallHealthChanges
        { opts := { MaxCheckParallelism := 1, DefaultTimeout := 5,
                    DefaultRunInterval := 15, MinRunInterval := 10,
                    MaxTimeout := 100 },
          checks := [], stopClosed := false,
          subscriptionsForRegisteredChecks := [],
          subscriptionsForCheckResults := [],
          subscriptionsForOverallHealthChanges := [],
          overallHealth := Status.Yellow, runResults := [],
          nextChan := 0 }).2.2 = [Status.Yellow] :=
  (subscribe_overall_health_first_value
    { opts := { MaxCheckParallelism := 1, DefaultTimeout := 5,
                DefaultRunInterval := 15, MinRunInterval := 10,
                MaxTimeout := 100 },
      checks := [], stopClosed := false,
      subscriptionsForRegisteredChecks := [],
      subscriptionsForCheckResults := [],
      subscriptionsForOverallHealthChanges := [],
      overallHealth := Status.Yellow, runResults := [], nextChan := 0 }
    (by intro c hc; cases hc)).1

/-- `service.TriggerShutdown` (part_000 lines 157-163): closes the stop
channel unless it is already closed (the select with a default branch
prevents a double close). -/
def TriggerShutdown (s : ServiceState) : ServiceState :=
  if s.stopClosed then s else { s with stopClosed := true }

/-- `service.SubscribeForRegisteredChecks` (part_000 lines 364-370):
allocates a fresh channel, adds it to the registration-subscriber set and
replies with it. -/
def SubscribeForRegisteredChecks (s : ServiceState) : ServiceState × Nat :=
  ({ s with
      subscriptionsForRegisteredChecks :=
        s.subscriptionsForRegisteredChecks ++ [s.nextChan]
      nextChan := s.nextChan + 1 },
   s.nextChan)

/-- `service.SubscribeForCheckResults` (part_000 lines 377-387): allocates a
fresh channel with the given filter (accept-all when nil) and adds it to the
result-subscriber set. -/
def SubscribeForCheckResults (s : ServiceState)
    (filter : Option (Result → Bool)) : ServiceState × Nat :=
  ({ s with
      subscriptionsForCheckResults :=
        s.subscriptionsForCheckResults ++
          [(s.nextChan, filter.getD (fun _ => true))]
      nextChan := s.nextChan + 1 },
   s.nextChan)

/-- A message arriving on one of the coordinator loop's channels
(part_000 lines 85-111), reply channels omitted. -/
inductive Event where
  | registerEvt (req : registerRequest)
  | resultEvt (r : Result)
  | getRegisteredChecksEvt
  | getCheckResultsEvt (filter : Option (Result → Bool))
  | getOverallHealthEvt
  | subscribeRegisteredChecksEvt
  | subscribeCheckResultsEvt (filter : Option (Result → Bool))
  | subscribeOverallHealthChangesEvt

/-- One iteration of `service.run` (part_000 lines 85-111): once the stop
channel is closed the loop returns (`none`, the terminal state); otherwise
the selected branch runs to completion and the loop continues with the new
state.  Snapshot requests reply without mutating state. -/
def runStep (s : ServiceState) (ev : Event) : Option ServiceState :=
  if s.stopClosed then none
  else some (match ev with
    | Event.registerEvt req => (Register s req).state
    | Event.resultEvt r => (processResult s r).state
    | Event.getRegisteredChecksEvt => s
    | Event.getCheckResultsEvt _ => s
    | Event.getOverallHealthEvt => s
    | Event.subscribeRegisteredChecksEvt => (SubscribeForRegisteredChecks s).1
    | Event.subscribeCheckResultsEvt f => (SubscribeForCheckResults s f).1
    | Event.subscribeOverallHealthChangesEvt =>
        (SubscribeForOverallHealthChanges s).1)

/-- Claim C9: `TriggerShutdown` is idempotent — the first call closes the
stop signal, later calls leave the state unchanged (calling twice equals
calling once, with no double close) — and once the stop signal has fired the
coordinator loop returns on every event and the engine never re-enters the
running state. -/
theorem trigger_shutdown_idempotent (s : ServiceState) (ev : Event) :
    TriggerShutdown (TriggerShutdown s) = TriggerShutdown s
      ∧ (TriggerShutdown s).stopClosed = true
      ∧ (s.stopClosed = true → TriggerShutdown s = s)
      ∧ runStep (TriggerShutdown s) ev = none
      ∧ (∀ s' : ServiceState, s'.stopClosed = true → runStep s' ev = none) := by
  have hclosed : (TriggerShutdown s).stopClosed = true := by
    by_cases h : s.stopClosed <;> simp [TriggerShutdown, h]
  have hnoop : ∀ t : ServiceState, t.stopClosed = true → TriggerShutdown t = t := by
    intro t ht
    simp [TriggerShutdown, ht]
  refine ⟨hnoop _ hclosed, hclosed, hnoop s, ?_, ?_⟩
  · simp [runStep, hclosed]
  · intro s' h
    simp [runStep, h]

/-- Witness for C9: on a concrete running engine, the coordinator loop after
shutdown returns on a register event, and a second shutdown is a no-op. -/
theorem trigger_shutdown_idempotent_witness :
    runStep
      (TriggerShutdown
        { opts := { MaxCheckParallelism := 1, DefaultTimeout := 5,
                    DefaultRunInterval := 15, MinRunInterval := 10,
                    MaxTimeout := 100 },
          checks := [], stopClosed := false,
          subscriptionsForRegisteredChecks := [],
          subscriptionsForCheckResults := [],
          subscriptionsForOverallHealthChanges := [],
          overallHealth := Status.Green, runResults := [], nextChan := 0 })
      Event.getOverallHealthEvt = none :=
  (trigger_shutdown_idempotent
    { opts := { MaxCheckParallelism := 1, DefaultTimeout := 5,
                DefaultRunInterval := 15, MinRunInterval := 10,
                MaxTimeout := 100 },
      checks := [], stopClosed := false,
      subscriptionsForRegisteredChecks := [],
      subscriptionsForCheckResults := [],
      subscriptionsForOverallHealthChanges := [],
      overallHealth := Status.Green, runResults := [], nextChan := 0 }
    Event.getOverallHealthEvt).2.2.2.1

/-- Claim C10: when the raw check function returns Status Green together
with a non-nil error, the wrapped Result has Err = nil — the error is
discarded: the Result returned to the caller, the one stored under the
check's ID, and every published copy all carry Err = nil. -/
theorem green_status_discards_error (id : String) (check : CheckFn)
    (timeout : Int) (env : RunEnv) (e : GoError)
    (h1 : env.timedOut = false)
    (h2 : check env = (Status.Green, some e)) :
    (WithTimeout id check timeout env).Err = none
      ∧ (WithTimeout id check timeout env).Status = Status.Green
      ∧ (WithTimeout id check timeout env).ID = id
      ∧ (∀ s : ServiceState,
          mapLookup (processResult s (WithTimeout id check timeout env)).state.runResults
              (WithTimeout id check timeout env).ID =
            some (WithTimeout id check timeout env))
      ∧ (∀ (s : ServiceState) (p : Nat × Result),
          p ∈ publishResult s (WithTimeout id check timeout env) →
            p.2.Err = none) := by
  have herr : (WithTimeout id check timeout env).Err = none := by
    simp [WithTimeout, h1, h2, healthCheckFailure]
  have hst : (WithTimeout id check timeout env).Status = Status.Green := by
    simp [WithTimeout, h1, h2]
  have hid : (WithTimeout id check timeout env).ID = id := by
    simp [WithTimeout, h1]
  refine ⟨herr, hst, hid, ?_, ?_⟩
  · intro s
    rw [processResult_state_runResults]
    exact mapLookup_mapInsert_self s.runResults _ _
  · intro s p hp
    rw [publishResult] at hp
    obtain ⟨q, _, hq⟩ := List.mem_map.mp hp
    rw [← hq]
    exact herr

/-- Witness for C10: a raw check returning (Green, some error); the wrapped
Result's Err is nil. -/
theorem green_status_discards_error_witness :
    (WithTimeout "db" (fun _ => (Status.Green, some (GoError.errorString "boom"))) 5
        { timedOut := false, now := 100, start := 90,
          rawStatus := Status.Green,
          rawErr := some (GoError.errorString "boom"),
          duration := 3 }).Err = none :=
  (green_status_discards_error "db"
    (fun _ => (Status.Green, some (GoError.errorString "boom"))) 5
    { timedOut := false, now := 100, start := 90,
      rawStatus := Status.Green,
      rawErr := some (GoError.errorString "boom"), duration := 3 }
    (GoError.errorString "boom") rfl rfl).1
